import Mathlib

/-!
# Verification of the ordered-slide-collection subsystem of `presenton`

Shallow embedding of `servers/fastapi/api/v1/ppt/endpoints/slide.py`
(operations `create_slide`, `delete_slide`, `edit_slide`, `edit_slide_html`)
and `servers/fastapi/utils/s3_utils.py`.

The relational store is modelled as an explicit state (`DB`): a list of
presentation rows, a list of slide rows and a list of asset rows.  UUIDs are
modelled as natural numbers; `uuid.uuid4()` is modelled by drawing the next
value from a `nextId` supply in the state (freshness of drawn ids relative to
existing rows is an explicit hypothesis `FreshIds` where a proof needs it).
Collaborator calls (LLM structure/content generation, asset fetching) are
modelled as oracle results passed in as parameters, each an `Except Unit α`
so that a raising collaborator can be represented.  An HTTP exception in the
Python code is modelled by the operation returning `Except.error`; since each
endpoint performs a single `commit` at the end, an error result means the
store is unchanged, which the `*Commit` wrappers make explicit.
-/

/-- A slide-layout entry of a presentation's layout model (an element of
`layout_model.slides` in the source); only its `id` is consumed by the
embedded code. -/
structure SlideLayoutModel where
  id : Nat
deriving Repr, DecidableEq

/-- The presentation's layout model as returned by `presentation.get_layout()`:
a `name`, an `ordered` flag and the list of slide layouts. -/
structure LayoutModel where
  name : String
  ordered : Bool
  slides : List SlideLayoutModel
deriving Repr, DecidableEq

/-- A slide row (`SlideModel` in `models/sql/slide.py`, which is not part of
the sources; fields are the ones the embedded endpoints read or write, as
described by the spec's data model).  `content` is the structured key-value
document; `index` is the 0-based ordinal within the presentation. -/
structure SlideModel where
  id : Nat
  presentation : Nat
  index : Int
  layout : Nat
  layout_group : String
  content : List (String × String)
  speaker_note : String
  html_content : Option String
deriving Repr, DecidableEq

/-- A presentation row (`PresentationModel`); `layout` stands for the value of
`presentation.get_layout()`. -/
structure PresentationModel where
  id : Nat
  n_slides : Int
  language : String
  tone : String
  verbosity : String
  instructions : String
  layout : LayoutModel
deriving Repr, DecidableEq

/-- An image-asset row (`models/sql/image_asset.py`). -/
structure ImageAsset where
  id : Nat
  is_uploaded : Bool
  path : String
  s3_url : Option String
deriving Repr, DecidableEq

/-- The transactional store: the rows of the three tables plus the supply of
fresh identities used to model `uuid.uuid4()`. -/
structure DB where
  presentations : List PresentationModel
  slides : List SlideModel
  assets : List ImageAsset
  nextId : Nat
deriving Repr, DecidableEq

/-- Errors surfaced by the endpoints.  `notFound` is HTTP 404,
`indexOutOfRange` is the 400 "Slide index out of range", `badRequest` other
400s, `generationFailed` the 500 "Failed to select slide layout",
`collaborator` a raising collaborator call, and `pyIndexError` a Python
`IndexError` from list subscripting. -/
inductive ApiError where
  | notFound (detail : String)
  | indexOutOfRange
  | badRequest (detail : String)
  | generationFailed (detail : String)
  | collaborator
  | pyIndexError
deriving Repr, DecidableEq

/-- Python `dict.get(k, d)` on the structured content document. -/
def getStr (c : List (String × String)) (k d : String) : String :=
  match c.find? (fun kv => kv.1 == k) with
  | some kv => kv.2
  | none => d

/-- Python list subscripting `l[i]` with an `int` index: non-negative indices
count from the front, negative indices from the back, out of range is an
`IndexError` (`none`). -/
def pyGet {α : Type} (l : List α) (i : Int) : Option α :=
  if 0 ≤ i then l.get? i.toNat
  else if i + l.length < 0 then none
  else l.get? (i + l.length).toNat

/-- All live slide rows of a presentation (the unsorted `WHERE presentation ==
presentation_id` row set). -/
def livesOf (db : DB) (pid : Nat) : List SlideModel :=
  db.slides.filter (fun s => s.presentation == pid)

/-- Insert a slide into a list sorted ascending by `index`. -/
def insertByIndex (s : SlideModel) : List SlideModel → List SlideModel
  | [] => [s]
  | t :: ts => if s.index ≤ t.index then s :: t :: ts else t :: insertByIndex s ts

/-- Sort ascending by `index` (the `ORDER BY index` of the queries). -/
def sortByIndex : List SlideModel → List SlideModel
  | [] => []
  | s :: ss => insertByIndex s (sortByIndex ss)

/-- Insert a slide into a list sorted descending by `index`. -/
def insertByIndexDesc (s : SlideModel) : List SlideModel → List SlideModel
  | [] => [s]
  | t :: ts => if t.index ≤ s.index then s :: t :: ts else t :: insertByIndexDesc s ts

/-- Sort descending by `index` (the `ORDER BY index DESC` of the insert
reindex query). -/
def sortByIndexDesc : List SlideModel → List SlideModel
  | [] => []
  | s :: ss => insertByIndexDesc s (sortByIndexDesc ss)

/-- The ordered listing of a presentation's slides (`SELECT … WHERE
presentation == pid ORDER BY index`). -/
def listOrdered (db : DB) (pid : Nat) : List SlideModel :=
  sortByIndex (livesOf db pid)

/-- `sql_session.get(PresentationModel, presentation_id)`. -/
def getPresentation (db : DB) (pid : Nat) : Option PresentationModel :=
  db.presentations.find? (fun p => p.id == pid)

/-- The row set of the insert reindex query, in the order the source iterates
it: slides of the presentation with `index >= slide_index`, sorted descending
by index (`create_slide`, the `ORDER BY SlideModel.index.desc()` query). -/
def subsequentSlidesDesc (db : DB) (pid : Nat) (i : Int) : List SlideModel :=
  sortByIndexDesc (db.slides.filter (fun s => s.presentation == pid && i ≤ s.index))

/-- Net effect on the slide table of `create_slide`'s reindex loop: every row
of the presentation with `index >= slide_index` is rewritten to `index + 1`.
The source applies these per-row updates iterating `subsequentSlidesDesc`
(descending); since each matching row is rewritten exactly once, the resulting
table is this per-row map. -/
def shiftUp (slides : List SlideModel) (pid : Nat) (i : Int) : List SlideModel :=
  slides.map fun s =>
    if s.presentation == pid && i ≤ s.index then { s with index := s.index + 1 } else s

/-- Net effect on the slide table of `delete_slide`'s reindex loop: every row
of the presentation with `index > slide_index` is rewritten to `index - 1`
(the source iterates the matching rows ascending by index). -/
def shiftDown (slides : List SlideModel) (pid : Nat) (i : Int) : List SlideModel :=
  slides.map fun s =>
    if s.presentation == pid && i < s.index then { s with index := s.index - 1 } else s

/-- `Modelled from the spec:` `layout_model.to_presentation_structure()` is not
among the sources; per the spec ("if the presentation's layout is a fixed
ordered sequence, consume the next layout slot directly"), an ordered layout
yields the layout indices in their fixed order. -/
def LayoutModel.to_presentation_structure (m : LayoutModel) : List Int :=
  (List.range m.slides.length).map Int.ofNat

/-- Oracle results of the collaborator calls made by `create_slide`:
`generate_presentation_structure` (its `.slides` list of layout indices),
`get_slide_content_from_type_and_outline`, and
`process_slide_and_fetch_assets`. -/
structure CreateCollab where
  structureSlides : Except Unit (List Int)
  slideContent : Except Unit (List (String × String))
  assets : Except Unit (List ImageAsset)
deriving Repr

/-- `POST /slide/delete` (`delete_slide` in `slide.py`): validate the index
against the ordered listing, locate the slide at that ordinal, hard-delete its
row, shift the subsequent rows down by one, and decrement `n_slides` floored
at 0.  An `Except.error` models a raised `HTTPException` before the single
`commit`, hence an unchanged store. -/
def delete_slide (db : DB) (presentation_id : Nat) (slide_index : Int) :
    Except ApiError DB :=
  match getPresentation db presentation_id with
  | none => .error (.notFound "Presentation not found")
  | some presentation =>
    if slide_index < 0 ∨
        ((sortByIndex (livesOf db presentation_id)).length : Int) ≤ slide_index then
      .error .indexOutOfRange
    else
      match (db.slides.filter
          (fun s => s.presentation == presentation_id && s.index == slide_index)).head? with
      | none => .error (.notFound "Slide not found")
      | some slide_to_delete =>
        .ok { db with
              slides := shiftDown
                (db.slides.filter (fun s => !(s.id == slide_to_delete.id)))
                presentation_id slide_index,
              presentations := db.presentations.map fun p =>
                if p.id == presentation_id then
                  { p with n_slides := max 0 (presentation.n_slides - 1) }
                else p }

/-- `POST /slide/create` (`create_slide` in `slide.py`): validate the index,
resolve a layout (ordered layouts give their fixed structure, otherwise the
structure-generation collaborator is invoked; a suggestion `>= len(slides)` is
replaced by 0), generate content, build the new slide at the target index,
shift subsequent rows up by one, fetch assets, and commit with `n_slides`
incremented (falling back to the listed count when the stored counter is
falsy). -/
def create_slide (db : DB) (presentation_id : Nat) (slide_index : Int)
    (_content : String) (collab : CreateCollab) :
    Except ApiError (DB × SlideModel) :=
  match getPresentation db presentation_id with
  | none => .error (.notFound "Presentation not found")
  | some presentation =>
    if slide_index < 0 ∨
        ((sortByIndex (livesOf db presentation_id)).length : Int) < slide_index then
      .error .indexOutOfRange
    else
      match (if presentation.layout.ordered then
               Except.ok presentation.layout.to_presentation_structure
             else collab.structureSlides : Except Unit (List Int)) with
      | .error _ => .error .collaborator
      | .ok structure_slides =>
        match structure_slides.take 1 with
        | [] => .error (.generationFailed "Failed to select slide layout")
        | li :: _ =>
          match pyGet presentation.layout.slides
              (if (presentation.layout.slides.length : Int) ≤ li then 0 else li) with
          | none => .error .pyIndexError
          | some slide_layout =>
            match collab.slideContent with
            | .error _ => .error .collaborator
            | .ok slide_content =>
              match collab.assets with
              | .error _ => .error .collaborator
              | .ok generated_assets =>
                .ok ({ presentations := db.presentations.map (fun p =>
                         if p.id == presentation_id then
                           { p with n_slides :=
                               (if presentation.n_slides = 0 then
                                  ((sortByIndex (livesOf db presentation_id)).length : Int)
                                else presentation.n_slides) + 1 }
                         else p)
                       slides := shiftUp db.slides presentation_id slide_index
                                   ++ [{ id := db.nextId
                                         presentation := presentation_id
                                         index := slide_index
                                         layout := slide_layout.id
                                         layout_group := presentation.layout.name
                                         content := slide_content
                                         speaker_note :=
                                           getStr slide_content "__speaker_note__" ""
                                         html_content := none }]
                       assets := db.assets ++ generated_assets
                       nextId := db.nextId + 1 },
                      { id := db.nextId
                        presentation := presentation_id
                        index := slide_index
                        layout := slide_layout.id
                        layout_group := presentation.layout.name
                        content := slide_content
                        speaker_note := getStr slide_content "__speaker_note__" ""
                        html_content := none })

/-- Oracle results of the collaborator calls made by `edit_slide`:
`get_slide_layout_from_prompt`, `get_edited_slide_content`, and
`process_old_and_new_slides_and_fetch_assets` (the latter returning the value
of `edited_slide_content` after its in-place mutation together with the new
assets). -/
structure EditCollab where
  slide_layout : Except Unit SlideLayoutModel
  edited_content : Except Unit (List (String × String))
  new_assets : Except Unit (List ImageAsset)
deriving Repr

/-- The slide row located by `edit_slide`'s query (`WHERE presentation ==
presentation_id AND index == slide_index`, `.first()`). -/
def findSlideAt (db : DB) (pid : Nat) (i : Int) : Option SlideModel :=
  (db.slides.filter (fun s => s.presentation == pid && s.index == i)).head?

/-- `POST /slide/edit` (`edit_slide` in `slide.py`): resolve the slide by
(presentation, index), run the layout-selection, content-edit and
asset-reconciliation collaborators, then rewrite the row with a freshly
assigned id, the edited content, the chosen layout id and the refreshed
speaker note; `index` and `presentation` are not touched. -/
def edit_slide (db : DB) (presentation_id : Nat) (slide_index : Int)
    (_prompt : String) (collab : EditCollab) :
    Except ApiError (DB × SlideModel) :=
  match getPresentation db presentation_id with
  | none => .error (.notFound "Presentation not found")
  | some _presentation =>
    match findSlideAt db presentation_id slide_index with
    | none => .error (.notFound "Slide not found")
    | some slide =>
      match collab.slide_layout with
      | .error _ => .error .collaborator
      | .ok slide_layout =>
        match collab.edited_content with
        | .error _ => .error .collaborator
        | .ok edited_slide_content =>
          match collab.new_assets with
          | .error _ => .error .collaborator
          | .ok new_assets =>
            .ok ({ db with
                   slides := db.slides.map
                     (fun s => if s.id == slide.id then
                        { slide with
                          id := db.nextId
                          content := edited_slide_content
                          layout := slide_layout.id
                          speaker_note :=
                            getStr edited_slide_content "__speaker_note__" "" }
                      else s)
                   assets := db.assets ++ new_assets
                   nextId := db.nextId + 1 },
                  { slide with
                    id := db.nextId
                    content := edited_slide_content
                    layout := slide_layout.id
                    speaker_note :=
                      getStr edited_slide_content "__speaker_note__" "" })

/-- Python truthiness of an optional string: `None` and `""` are falsy. -/
def blankStr : Option String → Bool
  | none => true
  | some s => s == ""

/-- Python `a or b` on optional strings. -/
def pyOrStr (a b : Option String) : Option String :=
  match a with
  | some s => if s == "" then b else some s
  | none => b

/-- `POST /slide/edit-html` (`edit_slide_html` in `slide.py`): resolve the
slide by id, take the request's `html` or fall back to the stored
`html_content`, reject with 400 when both are falsy, run the HTML-edit
collaborator (`edited` is its oracle result), then rewrite the row with a
freshly assigned id and the edited HTML. -/
def edit_slide_html (db : DB) (id : Nat) (_prompt : String)
    (html : Option String) (edited : Except Unit String) :
    Except ApiError (DB × SlideModel) :=
  match db.slides.find? (fun s => s.id == id) with
  | none => .error (.notFound "Slide not found")
  | some slide =>
    if blankStr (pyOrStr html slide.html_content) then
      .error (.badRequest "No HTML to edit")
    else
      match edited with
      | .error _ => .error .collaborator
      | .ok edited_slide_html =>
        .ok ({ db with
               slides := db.slides.map
                 (fun s => if s.id == slide.id then
                    { slide with
                      id := db.nextId
                      html_content := some edited_slide_html }
                  else s)
               nextId := db.nextId + 1 },
              { slide with
                id := db.nextId
                html_content := some edited_slide_html })

/-- The store state after `create_slide` ran: the committed state on success,
the untouched original on any raised exception (the endpoint commits once, at
the end). -/
def createCommit (db : DB) (pid : Nat) (i : Int) (c : String)
    (collab : CreateCollab) : DB :=
  match create_slide db pid i c collab with
  | .ok (db', _) => db'
  | .error _ => db

/-- The store state after `delete_slide` ran. -/
def deleteCommit (db : DB) (pid : Nat) (i : Int) : DB :=
  match delete_slide db pid i with
  | .ok db' => db'
  | .error _ => db

/-- The store state after `edit_slide` ran. -/
def editCommit (db : DB) (pid : Nat) (i : Int) (prompt : String)
    (collab : EditCollab) : DB :=
  match edit_slide db pid i prompt collab with
  | .ok (db', _) => db'
  | .error _ => db

/-- The store state after `edit_slide_html` ran. -/
def editHtmlCommit (db : DB) (id : Nat) (prompt : String)
    (html : Option String) (edited : Except Unit String) : DB :=
  match edit_slide_html db id prompt html edited with
  | .ok (db', _) => db'
  | .error _ => db

/-! ## Object storage (`utils/s3_utils.py`) -/

/-- The object-storage environment configuration (the six
`OBJECT_STORAGE_*` variables read via `utils/get_env.py`; `none` models an
unset variable). -/
structure S3Config where
  endpoint : Option String
  access_key : Option String
  secret_key : Option String
  region : Option String
  bucket : Option String
  pfxBase : Option String
deriving Repr, DecidableEq

/-- `_build_s3_client`: `none` when endpoint, access key or secret key is
falsy (unset or empty); otherwise a client handle (modelled as `Unit`). -/
def build_s3_client (cfg : S3Config) : Option Unit :=
  if blankStr cfg.endpoint || blankStr cfg.access_key || blankStr cfg.secret_key
  then none else some ()

/-- Python `str.strip("/")`. -/
def stripSlashes (s : String) : String :=
  String.mk (((s.toList.dropWhile (· == '/')).reverse.dropWhile (· == '/')).reverse)

/-- `os.path.basename` for the slash-separated paths used by the uploader. -/
def pathBasename (p : String) : String :=
  match (p.splitOn "/").getLast? with
  | some x => x
  | none => p

/-- The object key built by `_upload_file_to_s3_sync`:
`<base_prefix>/<postfix>/<filename>`, skipping falsy components. -/
def s3ObjectKey (cfg : S3Config) (local_path : String) (post : Option String) :
    String :=
  let filename := pathBasename local_path
  let base := match cfg.pfxBase with | some s => s | none => ""
  let key_parts :=
    (if base == "" then [] else [stripSlashes base]) ++
    (match post with
     | some ps => if ps == "" then [] else [stripSlashes ps]
     | none => []) ++ [filename]
  String.intercalate "/" key_parts

/-- `_upload_file_to_s3_sync`: `none` when the client is unconfigured or the
bucket name is falsy; otherwise uploads and returns the object key. -/
def upload_file_to_s3_sync (cfg : S3Config) (local_path : String)
    (post : Option String) : Option String :=
  match build_s3_client cfg with
  | none => none
  | some _ =>
    if blankStr cfg.bucket then none
    else some (s3ObjectKey cfg local_path post)

/-- `_download_file_from_s3_sync`: `none` when the client is unconfigured or
the bucket name is falsy; otherwise downloads and returns `local_path`. -/
def download_file_from_s3_sync (cfg : S3Config) (_object_key : String)
    (local_path : String) : Option String :=
  match build_s3_client cfg with
  | none => none
  | some _ =>
    if blankStr cfg.bucket then none
    else some local_path

/-! ## Invariants and counting infrastructure -/

/-- Number of slide rows of presentation `pid` sitting at index `k`. -/
def countIdx (L : List SlideModel) (pid : Nat) (k : Int) : Nat :=
  L.countP (fun s => s.presentation == pid && s.index == k)

/-- Number of slide rows of presentation `pid`. -/
def pcount (L : List SlideModel) (pid : Nat) : Nat :=
  L.countP (fun s => s.presentation == pid)

/-- The contiguity invariant for presentation `pid`: as a multiset, the
`index` values of its live slides are exactly `{0, …, count - 1}` — each
index in range occurs on exactly one row, none occurs outside the range
(hence no gaps and no duplicates). -/
def Contiguous (db : DB) (pid : Nat) : Prop :=
  ∀ k : Int, countIdx db.slides pid k =
    if 0 ≤ k ∧ k < (pcount db.slides pid : Int) then 1 else 0

/-- Slide ids are pairwise distinct (the `id` column is the primary key). -/
def IdsNodup (db : DB) : Prop := (db.slides.map (fun s => s.id)).Nodup

/-- All existing slide ids are below the fresh-id supply, i.e. `uuid.uuid4()`
never collides with a stored id. -/
def FreshIds (db : DB) : Prop := ∀ s ∈ db.slides, s.id < db.nextId

/-! ## Concrete fixtures used by the witnesses and the counterexample -/

/-- A two-entry ordered layout. -/
def exLayout : LayoutModel :=
  { name := "default", ordered := true,
    slides := [{ id := 5 }, { id := 6 }] }

/-- A two-entry non-ordered layout (layout selection goes through the
structure-generation collaborator). -/
def exLayoutFree : LayoutModel :=
  { name := "free", ordered := false,
    slides := [{ id := 5 }, { id := 6 }] }

/-- A presentation row with three slides. -/
def exPres : PresentationModel :=
  { id := 1, n_slides := 3, language := "English", tone := "neutral",
    verbosity := "standard", instructions := "", layout := exLayout }

/-- `exPres` with the non-ordered layout. -/
def exPresFree : PresentationModel := { exPres with layout := exLayoutFree }

/-- A slide row of presentation 1. -/
def exSlide (sid : Nat) (i : Int) : SlideModel :=
  { id := sid, presentation := 1, index := i, layout := 5,
    layout_group := "default", content := [("title", "t")],
    speaker_note := "", html_content := some "<p>x</p>" }

/-- A store with one presentation and three contiguous slides. -/
def exDB : DB :=
  { presentations := [exPres],
    slides := [exSlide 10 0, exSlide 11 1, exSlide 12 2],
    assets := [], nextId := 100 }

/-- `exDB` with the non-ordered layout. -/
def exDBFree : DB := { exDB with presentations := [exPresFree] }

/-- A store whose only slide has no stored HTML. -/
def exDBNoHtml : DB :=
  { presentations := [exPres],
    slides := [{ exSlide 20 0 with html_content := none }],
    assets := [], nextId := 50 }

/-- Collaborator oracle where every call succeeds. -/
def exCollab : CreateCollab :=
  { structureSlides := .ok [0], slideContent := .ok [("body", "b")],
    assets := .ok [] }

/-- Collaborator oracle suggesting the negative layout index -3. -/
def exCollabNeg : CreateCollab := { exCollab with structureSlides := .ok [-3] }

/-- Collaborator oracle suggesting the too-large layout index 5. -/
def exCollabBig : CreateCollab := { exCollab with structureSlides := .ok [5] }

/-- Collaborator oracle whose asset-fetch step raises. -/
def exCollabFailAssets : CreateCollab := { exCollab with assets := .error () }

/-- Edit collaborator oracle where every call succeeds. -/
def exEditCollab : EditCollab :=
  { slide_layout := .ok { id := 6 }, edited_content := .ok [("body", "new")],
    new_assets := .ok [] }

/-- Edit collaborator oracle whose asset-reconciliation step raises. -/
def exEditCollabFail : EditCollab := { exEditCollab with new_assets := .error () }

/-- Object-storage configuration with no endpoint set. -/
def exCfgOff : S3Config :=
  { endpoint := none, access_key := some "ak", secret_key := some "sk",
    region := some "us-east-1", bucket := some "bkt", pfxBase := some "pre" }

/-- Fully configured object storage. -/
def exCfgOn : S3Config :=
  { endpoint := some "http://minio", access_key := some "ak",
    secret_key := some "sk", region := some "us-east-1",
    bucket := some "bkt", pfxBase := some "pre/" }

/-- Committed result of inserting at index 1 into `exDB`. -/
def exInsPair : DB × SlideModel :=
  (create_slide exDB 1 1 "new" exCollab).toOption.getD (exDB, exSlide 0 0)

/-- Committed result of inserting at index 0 into `exDBFree` under the
too-large layout suggestion. -/
def exInsPairBig : DB × SlideModel :=
  (create_slide exDBFree 1 0 "extra" exCollabBig).toOption.getD
    (exDB, exSlide 0 0)

/-- Collaborator oracle suggesting the in-range negative layout index -1. -/
def exCollabNegIn : CreateCollab :=
  { exCollab with structureSlides := .ok [-1] }

/-- Committed result of inserting at index 0 into `exDBFree` under the
in-range negative layout suggestion -1. -/
def exInsPairNegIn : DB × SlideModel :=
  (create_slide exDBFree 1 0 "mid" exCollabNegIn).toOption.getD
    (exDB, exSlide 0 0)

/-- Committed result of a structured-content edit of slide index 1. -/
def exEditPair : DB × SlideModel :=
  (edit_slide exDB 1 1 "reword" exEditCollab).toOption.getD (exDB, exSlide 0 0)

/-- Committed result of an HTML edit of slide 10. -/
def exHtmlPair : DB × SlideModel :=
  (edit_slide_html exDB 10 "restyle" (some "<b>y</b>") (.ok "<i>z</i>")).toOption.getD
    (exDB, exSlide 0 0)

theorem countIdx_nil (pid : Nat) (k : Int) : countIdx [] pid k = 0 := rfl

theorem countIdx_cons (s : SlideModel) (L : List SlideModel) (pid : Nat)
    (k : Int) :
    countIdx (s :: L) pid k =
      countIdx L pid k + (if s.presentation = pid ∧ s.index = k then 1 else 0) := by
  simp [countIdx, List.countP_cons]

theorem countIdx_append (L M : List SlideModel) (pid : Nat) (k : Int) :
    countIdx (L ++ M) pid k = countIdx L pid k + countIdx M pid k := by
  simp [countIdx, List.countP_append]

theorem pcount_cons (s : SlideModel) (L : List SlideModel) (pid : Nat) :
    pcount (s :: L) pid =
      pcount L pid + (if s.presentation = pid then 1 else 0) := by
  simp [pcount, List.countP_cons]

theorem pcount_append (L M : List SlideModel) (pid : Nat) :
    pcount (L ++ M) pid = pcount L pid + pcount M pid := by
  simp [pcount, List.countP_append]

theorem livesOf_length (db : DB) (pid : Nat) :
    (livesOf db pid).length = pcount db.slides pid := by
  simp [livesOf, pcount, List.countP_eq_length_filter]

theorem insertByIndex_length (s : SlideModel) (L : List SlideModel) :
    (insertByIndex s L).length = L.length + 1 := by
  induction L with
  | nil => rfl
  | cons t ts ih =>
    simp only [insertByIndex]
    split <;> simp [ih]

theorem sortByIndex_length (L : List SlideModel) :
    (sortByIndex L).length = L.length := by
  induction L with
  | nil => rfl
  | cons s ss ih => simp [sortByIndex, insertByIndex_length, ih]

theorem shiftUp_cons (s : SlideModel) (ss : List SlideModel) (pid : Nat)
    (i : Int) :
    shiftUp (s :: ss) pid i =
      (if s.presentation == pid && decide (i ≤ s.index) then
        { s with index := s.index + 1 } else s) :: shiftUp ss pid i := rfl

theorem shiftDown_cons (s : SlideModel) (ss : List SlideModel) (pid : Nat)
    (i : Int) :
    shiftDown (s :: ss) pid i =
      (if s.presentation == pid && decide (i < s.index) then
        { s with index := s.index - 1 } else s) :: shiftDown ss pid i := rfl

theorem countIdx_shiftUp (L : List SlideModel) (pid : Nat) (i k : Int) :
    countIdx (shiftUp L pid i) pid k =
      if k < i then countIdx L pid k
      else if k = i then 0
      else countIdx L pid (k - 1) := by
  induction L with
  | nil => simp [shiftUp, countIdx_nil]
  | cons s ss ih =>
    rw [shiftUp_cons]
    by_cases hc : (s.presentation == pid && decide (i ≤ s.index)) = true
    · simp only [Bool.and_eq_true, beq_iff_eq, decide_eq_true_eq] at hc
      rw [if_pos (by simp [hc.1, hc.2])]
      simp only [countIdx_cons, ih]
      obtain ⟨hp, hge⟩ := hc
      simp only [hp, true_and]
      split_ifs <;> omega
    · simp only [Bool.and_eq_true, beq_iff_eq, decide_eq_true_eq,
        not_and, not_le] at hc
      rw [if_neg (by
        simp only [Bool.and_eq_true, beq_iff_eq, decide_eq_true_eq, not_and,
          not_le]
        exact hc)]
      simp only [countIdx_cons, ih]
      by_cases hp : s.presentation = pid
      · have hlt : s.index < i := hc hp
        simp only [hp, true_and]
        split_ifs <;> omega
      · simp only [hp, false_and, if_false]
        split_ifs <;> omega

theorem countIdx_shiftDown (L : List SlideModel) (pid : Nat) (i k : Int) :
    countIdx (shiftDown L pid i) pid k =
      if k < i then countIdx L pid k
      else if k = i then countIdx L pid i + countIdx L pid (i + 1)
      else countIdx L pid (k + 1) := by
  induction L with
  | nil => simp [shiftDown, countIdx_nil]
  | cons s ss ih =>
    rw [shiftDown_cons]
    by_cases hc : (s.presentation == pid && decide (i < s.index)) = true
    · simp only [Bool.and_eq_true, beq_iff_eq, decide_eq_true_eq] at hc
      rw [if_pos (by simp [hc.1, hc.2])]
      simp only [countIdx_cons, ih]
      obtain ⟨hp, hgt⟩ := hc
      simp only [hp, true_and]
      split_ifs <;> omega
    · simp only [Bool.and_eq_true, beq_iff_eq, decide_eq_true_eq,
        not_and, not_lt] at hc
      rw [if_neg (by
        simp only [Bool.and_eq_true, beq_iff_eq, decide_eq_true_eq, not_and,
          not_lt]
        exact hc)]
      simp only [countIdx_cons, ih]
      by_cases hp : s.presentation = pid
      · have hle : s.index ≤ i := hc hp
        simp only [hp, true_and]
        split_ifs <;> omega
      · simp only [hp, false_and, if_false]
        split_ifs <;> omega

theorem pcount_shiftUp (L : List SlideModel) (pid pid' : Nat) (i : Int) :
    pcount (shiftUp L pid' i) pid = pcount L pid := by
  induction L with
  | nil => rfl
  | cons s ss ih =>
    simp only [shiftUp, List.map_cons] at *
    rw [pcount_cons, pcount_cons, ih]
    split <;> rfl

theorem pcount_shiftDown (L : List SlideModel) (pid pid' : Nat) (i : Int) :
    pcount (shiftDown L pid' i) pid = pcount L pid := by
  induction L with
  | nil => rfl
  | cons s ss ih =>
    simp only [shiftDown, List.map_cons] at *
    rw [pcount_cons, pcount_cons, ih]
    split <;> rfl

theorem insertByIndex_perm (s : SlideModel) (L : List SlideModel) :
    List.Perm (insertByIndex s L) (s :: L) := by
  induction L with
  | nil => exact List.Perm.refl _
  | cons t ts ih =>
    simp only [insertByIndex]
    split
    · exact List.Perm.refl _
    · exact (List.Perm.cons t ih).trans (List.Perm.swap s t ts)

theorem sortByIndex_perm (L : List SlideModel) : List.Perm (sortByIndex L) L := by
  induction L with
  | nil => exact List.Perm.refl _
  | cons s ss ih =>
    exact (insertByIndex_perm s (sortByIndex ss)).trans (List.Perm.cons s ih)

theorem insertByIndexDesc_perm (s : SlideModel) (L : List SlideModel) :
    List.Perm (insertByIndexDesc s L) (s :: L) := by
  induction L with
  | nil => exact List.Perm.refl _
  | cons t ts ih =>
    simp only [insertByIndexDesc]
    split
    · exact List.Perm.refl _
    · exact (List.Perm.cons t ih).trans (List.Perm.swap s t ts)

theorem sortByIndexDesc_perm (L : List SlideModel) : List.Perm (sortByIndexDesc L) L := by
  induction L with
  | nil => exact List.Perm.refl _
  | cons s ss ih =>
    exact (insertByIndexDesc_perm s (sortByIndexDesc ss)).trans
      (List.Perm.cons s ih)

theorem insertByIndexDesc_pairwise (s : SlideModel) (L : List SlideModel)
    (h : L.Pairwise (fun a b => b.index ≤ a.index)) :
    (insertByIndexDesc s L).Pairwise (fun a b => b.index ≤ a.index) := by
  induction L with
  | nil => simp [insertByIndexDesc]
  | cons t ts ih =>
    obtain ⟨ht, hts⟩ := List.pairwise_cons.mp h
    simp only [insertByIndexDesc]
    split
    · next hle =>
      exact List.pairwise_cons.mpr
        ⟨fun b hb => by
          rcases List.mem_cons.mp hb with rfl | hb
          · exact hle
          · exact le_trans (ht b hb) hle, h⟩
    · next hnle =>
      refine List.pairwise_cons.mpr ⟨fun b hb => ?_, ih hts⟩
      rcases List.mem_cons.mp ((insertByIndexDesc_perm s ts).mem_iff.mp hb) with
        rfl | hb'
      · exact le_of_not_le hnle
      · exact ht b hb'

theorem sortByIndexDesc_pairwise (L : List SlideModel) :
    (sortByIndexDesc L).Pairwise (fun a b => b.index ≤ a.index) := by
  induction L with
  | nil => simp [sortByIndexDesc]
  | cons s ss ih => exact insertByIndexDesc_pairwise s (sortByIndexDesc ss) ih

theorem countP_removeId (p : SlideModel → Bool) (L : List SlideModel)
    (d : SlideModel) (hnd : (L.map (fun s => s.id)).Nodup) (hd : d ∈ L) :
    L.countP p =
      (L.filter (fun s => !(s.id == d.id))).countP p + (if p d then 1 else 0) := by
  induction L with
  | nil => cases hd
  | cons x xs ih =>
    rw [List.map_cons, List.nodup_cons] at hnd
    rcases List.mem_cons.mp hd with rfl | hdx
    · rw [List.filter_cons, if_neg (by simp)]
      have hkeep : xs.filter (fun s => !(s.id == d.id)) = xs := by
        apply List.filter_eq_self.mpr
        intro a ha
        simp only [Bool.not_eq_true', beq_eq_false_iff_ne, ne_eq]
        intro h
        exact hnd.1 (h ▸ List.mem_map_of_mem (fun s => s.id) ha)
      rw [hkeep, List.countP_cons]
    · have hxd : (!(x.id == d.id)) = true := by
        simp only [Bool.not_eq_true', beq_eq_false_iff_ne, ne_eq]
        intro h
        exact hnd.1 (h ▸ List.mem_map_of_mem (fun s => s.id) hdx)
      rw [List.filter_cons, if_pos hxd, List.countP_cons, List.countP_cons,
        ih hnd.2 hdx]
      omega

theorem countIdx_removeId (L : List SlideModel) (d : SlideModel) (pid : Nat)
    (k : Int) (hnd : (L.map (fun s => s.id)).Nodup) (hd : d ∈ L) :
    countIdx L pid k =
      countIdx (L.filter (fun s => !(s.id == d.id))) pid k +
        (if d.presentation = pid ∧ d.index = k then 1 else 0) := by
  have := countP_removeId (fun s => s.presentation == pid && s.index == k) L d
    hnd hd
  simpa [countIdx] using this

theorem pcount_removeId (L : List SlideModel) (d : SlideModel) (pid : Nat)
    (hnd : (L.map (fun s => s.id)).Nodup) (hd : d ∈ L) :
    pcount L pid =
      pcount (L.filter (fun s => !(s.id == d.id))) pid +
        (if d.presentation = pid then 1 else 0) := by
  have := countP_removeId (fun s => s.presentation == pid) L d hnd hd
  simpa [pcount] using this

theorem head?_filter_spec {p : SlideModel → Bool} {L : List SlideModel}
    {d : SlideModel} (h : (L.filter p).head? = some d) : d ∈ L ∧ p d := by
  have hm : d ∈ L.filter p := by
    cases hf : L.filter p with
    | nil => rw [hf] at h; cases h
    | cons a as =>
      rw [hf] at h
      have had : a = d := by injection h
      rw [← had]
      exact List.mem_cons_self a as
  exact ⟨(List.mem_filter.mp hm).1, (List.mem_filter.mp hm).2⟩

theorem getPresentation_spec {db : DB} {pid : Nat} {p : PresentationModel}
    (h : getPresentation db pid = some p) :
    p ∈ db.presentations ∧ p.id = pid := by
  refine ⟨List.mem_of_find?_eq_some h, ?_⟩
  have := List.find?_some h
  simpa using this

theorem find?_map_update (ps : List PresentationModel) (pid : Nat)
    (f : PresentationModel → PresentationModel)
    (hf : ∀ q, (f q).id = q.id) {p : PresentationModel}
    (hp : ps.find? (fun q => q.id == pid) = some p) :
    (ps.map (fun q => if q.id == pid then f q else q)).find?
      (fun q => q.id == pid) = some (f p) := by
  induction ps with
  | nil => cases hp
  | cons x xs ih =>
    rw [List.find?_cons] at hp
    rw [List.map_cons]
    by_cases hx : (x.id == pid) = true
    · rw [hx] at hp
      have hxp : x = p := by injection hp
      subst hxp
      rw [if_pos hx, List.find?_cons]
      have hfx : ((f x).id == pid) = true := by rw [hf]; exact hx
      rw [hfx]
    · rw [Bool.of_not_eq_true hx] at hp
      rw [if_neg hx, List.find?_cons]
      rw [show (x.id == pid) = false from Bool.of_not_eq_true hx]
      exact ih hp

theorem shiftDown_shiftUp (L : List SlideModel) (pid : Nat) (i : Int) :
    shiftDown (shiftUp L pid i) pid i = L := by
  induction L with
  | nil => rfl
  | cons s ss ih =>
    rw [shiftUp_cons]
    by_cases hc : (s.presentation == pid && decide (i ≤ s.index)) = true
    · rw [if_pos hc, shiftDown_cons, ih]
      simp only [Bool.and_eq_true, beq_iff_eq, decide_eq_true_eq] at hc
      rw [if_pos (by
        simp only [Bool.and_eq_true, beq_iff_eq, decide_eq_true_eq]
        exact ⟨hc.1, by omega⟩)]
      congr 1
      cases s
      simp only [SlideModel.mk.injEq, and_true, true_and]
      omega
    · rw [if_neg hc, shiftDown_cons, ih]
      simp only [Bool.and_eq_true, beq_iff_eq, decide_eq_true_eq, not_and,
        not_le] at hc
      rw [if_neg (by
        simp only [Bool.and_eq_true, beq_iff_eq, decide_eq_true_eq, not_and,
          not_lt]
        intro hpres
        have := hc hpres
        omega)]

theorem pcount_nil (pid : Nat) : pcount [] pid = 0 := rfl

theorem countP_range_eq (n : Nat) (k : Int) :
    (List.range n).countP (fun m => (Int.ofNat m) == k) =
      if 0 ≤ k ∧ k < (n : Int) then 1 else 0 := by
  induction n with
  | zero =>
    rw [List.range_zero, List.countP_nil]
    split_ifs with h
    · omega
    · rfl
  | succ n ih =>
    rw [List.range_succ, List.countP_append, ih, List.countP_cons,
      List.countP_nil]
    simp only [beq_iff_eq, Int.ofNat_eq_coe]
    split_ifs <;> omega

/-- Bridge used to certify `Contiguous` on concrete states: if the ordered
listing's index column is literally `[0, …, n-1]`, the invariant holds. -/
theorem contiguous_of_listing (db : DB) (pid : Nat)
    (h : (listOrdered db pid).map (fun s => s.index) =
      (List.range (livesOf db pid).length).map Int.ofNat) :
    Contiguous db pid := by
  intro k
  have h2 := congrArg (List.countP (fun x : Int => x == k)) h
  rw [List.countP_map, List.countP_map] at h2
  have h3 : (listOrdered db pid).countP (fun s => s.index == k) =
      (List.range (livesOf db pid).length).countP
        (fun m => (Int.ofNat m) == k) := h2
  rw [listOrdered] at h3
  rw [(sortByIndex_perm (livesOf db pid)).countP_eq] at h3
  have h4 : countIdx db.slides pid k =
      (livesOf db pid).countP (fun s => s.index == k) := by
    rw [livesOf, List.countP_filter, countIdx]
    exact List.countP_congr (fun s _ => by
      constructor
      · intro hs
        simp only [Bool.and_eq_true, beq_iff_eq] at hs ⊢
        exact ⟨hs.2, hs.1⟩
      · intro hs
        simp only [Bool.and_eq_true, beq_iff_eq] at hs ⊢
        exact ⟨hs.2, hs.1⟩)
  rw [h4, h3, countP_range_eq, livesOf_length]

/-- Contiguity is preserved by the slide-table rewrite of a committed
insert. -/
theorem contiguous_insert {db db2 : DB} {pid : Nat} {i : Int}
    {ns : SlideModel} (hcont : Contiguous db pid)
    (h0 : 0 ≤ i) (hle : i ≤ (pcount db.slides pid : Int))
    (hns : ns.presentation = pid) (hidx : ns.index = i)
    (hsl : db2.slides = shiftUp db.slides pid i ++ [ns]) :
    Contiguous db2 pid := by
  intro k
  have hck := hcont k
  have hck1 := hcont (k - 1)
  rw [hsl, countIdx_append, countIdx_shiftUp, pcount_append, pcount_shiftUp,
    countIdx_cons, countIdx_nil, pcount_cons, pcount_nil, hns, hidx]
  simp only [true_and]
  split_ifs at hck hck1 ⊢ <;> omega

set_option maxHeartbeats 2000000 in
/-- Contiguity is preserved by the slide-table rewrite of a committed
delete. -/
theorem contiguous_delete {db db2 : DB} {pid : Nat} {i : Int}
    {d : SlideModel} (hcont : Contiguous db pid) (hnd : IdsNodup db)
    (h0 : 0 ≤ i) (hlt : i < (pcount db.slides pid : Int))
    (hd : d ∈ db.slides) (hdp : d.presentation = pid) (hdi : d.index = i)
    (hsl : db2.slides =
      shiftDown (db.slides.filter (fun s => !(s.id == d.id))) pid i) :
    Contiguous db2 pid := by
  intro k
  have hrk := countIdx_removeId db.slides d pid k hnd hd
  have hrk1 := countIdx_removeId db.slides d pid (k + 1) hnd hd
  have hri := countIdx_removeId db.slides d pid i hnd hd
  have hri1 := countIdx_removeId db.slides d pid (i + 1) hnd hd
  have hp := pcount_removeId db.slides d pid hnd hd
  have hck := hcont k
  have hck1 := hcont (k + 1)
  have hci := hcont i
  have hci1 := hcont (i + 1)
  rw [hdp, hdi] at hrk hrk1 hri hri1
  rw [hdp] at hp
  simp only [true_and] at hrk hrk1 hri hri1
  rw [hsl, countIdx_shiftDown, pcount_shiftDown]
  split_ifs at hrk hrk1 hri hri1 hp hck hck1 hci hci1 ⊢ <;> omega

theorem delete_slide_ok_spec {db : DB} {pid : Nat} {i : Int} {db2 : DB}
    (hok : delete_slide db pid i = .ok db2) :
    ∃ p d, getPresentation db pid = some p ∧
      0 ≤ i ∧ i < ((livesOf db pid).length : Int) ∧
      d ∈ db.slides ∧ d.presentation = pid ∧ d.index = i ∧
      db2.slides =
        shiftDown (db.slides.filter (fun s => !(s.id == d.id))) pid i ∧
      db2.presentations = db.presentations.map (fun q =>
        if q.id == pid then { q with n_slides := max 0 (p.n_slides - 1) }
        else q) ∧
      db2.assets = db.assets ∧ db2.nextId = db.nextId := by
  unfold delete_slide at hok
  split at hok
  · exact Except.noConfusion hok
  · next presentation hpres =>
    split at hok
    · exact Except.noConfusion hok
    · next hcond =>
      split at hok
      · exact Except.noConfusion hok
      · next d hd =>
        have hmem := head?_filter_spec hd
        simp only [Bool.and_eq_true, beq_iff_eq] at hmem
        have hlen : (sortByIndex (livesOf db pid)).length =
            (livesOf db pid).length := sortByIndex_length _
        rw [not_or, not_lt, not_le, hlen] at hcond
        cases hok
        exact ⟨presentation, d, hpres, hcond.1, hcond.2, hmem.1, hmem.2.1,
          hmem.2.2, rfl, rfl, rfl, rfl⟩

theorem create_slide_ok_spec {db : DB} {pid : Nat} {i : Int} {c : String}
    {collab : CreateCollab} {db2 : DB} {ns : SlideModel}
    (hok : create_slide db pid i c collab = .ok (db2, ns)) :
    ∃ p, getPresentation db pid = some p ∧
      0 ≤ i ∧ i ≤ ((livesOf db pid).length : Int) ∧
      ns.id = db.nextId ∧ ns.presentation = pid ∧ ns.index = i ∧
      db2.slides = shiftUp db.slides pid i ++ [ns] ∧
      db2.nextId = db.nextId + 1 ∧
      db2.presentations = db.presentations.map (fun q =>
        if q.id == pid then
          { q with n_slides :=
              (if p.n_slides = 0 then ((livesOf db pid).length : Int)
               else p.n_slides) + 1 }
        else q) ∧
      (∃ sc, collab.slideContent = .ok sc ∧ ns.content = sc) ∧
      (∃ ga, collab.assets = .ok ga ∧ db2.assets = db.assets ++ ga) ∧
      (∃ st li rest sl,
        (if p.layout.ordered then Except.ok p.layout.to_presentation_structure
         else collab.structureSlides) = .ok st ∧
        st.take 1 = li :: rest ∧
        pyGet p.layout.slides
          (if (p.layout.slides.length : Int) ≤ li then 0 else li) = some sl ∧
        ns.layout = sl.id) := by
  unfold create_slide at hok
  split at hok
  · exact Except.noConfusion hok
  · next presentation hpres =>
    split at hok
    · exact Except.noConfusion hok
    · next hcond =>
      split at hok
      · exact Except.noConfusion hok
      · next st hst =>
        split at hok
        · exact Except.noConfusion hok
        · next li rest htake =>
          split at hok
          · exact Except.noConfusion hok
          · next sl hsl =>
            split at hok
            · exact Except.noConfusion hok
            · next sc hsc =>
              split at hok
              · exact Except.noConfusion hok
              · next ga hga =>
                have hlen : (sortByIndex (livesOf db pid)).length =
                    (livesOf db pid).length := sortByIndex_length _
                rw [not_or, not_lt, not_lt, hlen] at hcond
                cases hok
                refine ⟨presentation, hpres, hcond.1, hcond.2, rfl, rfl, rfl,
                  by rw [hlen], rfl, by rw [hlen], ⟨sc, hsc, rfl⟩,
                  ⟨ga, hga, rfl⟩, ⟨st, li, rest, sl, hst, htake, hsl, rfl⟩⟩

theorem edit_slide_ok_spec {db : DB} {pid : Nat} {i : Int} {prompt : String}
    {collab : EditCollab} {db2 : DB} {ns : SlideModel}
    (hok : edit_slide db pid i prompt collab = .ok (db2, ns)) :
    ∃ p old, getPresentation db pid = some p ∧
      findSlideAt db pid i = some old ∧
      (∃ sl, collab.slide_layout = .ok sl ∧ ns.layout = sl.id) ∧
      (∃ ec, collab.edited_content = .ok ec ∧ ns.content = ec) ∧
      (∃ na, collab.new_assets = .ok na ∧ db2.assets = db.assets ++ na) ∧
      ns.id = db.nextId ∧ ns.index = old.index ∧
      ns.presentation = old.presentation ∧
      db2.slides = db.slides.map (fun s => if s.id == old.id then ns else s) ∧
      db2.presentations = db.presentations ∧ db2.nextId = db.nextId + 1 := by
  unfold edit_slide at hok
  split at hok
  · exact Except.noConfusion hok
  · next presentation hpres =>
    split at hok
    · exact Except.noConfusion hok
    · next old hold =>
      split at hok
      · exact Except.noConfusion hok
      · next sl hsl =>
        split at hok
        · exact Except.noConfusion hok
        · next ec hec =>
          split at hok
          · exact Except.noConfusion hok
          · next na hna =>
            cases hok
            exact ⟨presentation, old, hpres, hold, ⟨sl, hsl, rfl⟩,
              ⟨ec, hec, rfl⟩, ⟨na, hna, rfl⟩, rfl, rfl, rfl, rfl, rfl, rfl⟩

theorem edit_slide_html_ok_spec {db : DB} {id : Nat} {prompt : String}
    {html : Option String} {edited : Except Unit String} {db2 : DB}
    {ns : SlideModel}
    (hok : edit_slide_html db id prompt html edited = .ok (db2, ns)) :
    ∃ old, db.slides.find? (fun s => s.id == id) = some old ∧
      blankStr (pyOrStr html old.html_content) = false ∧
      (∃ eh, edited = .ok eh ∧ ns.html_content = some eh) ∧
      ns.id = db.nextId ∧ ns.index = old.index ∧
      ns.presentation = old.presentation ∧
      db2.slides = db.slides.map (fun s => if s.id == old.id then ns else s) ∧
      db2.presentations = db.presentations ∧ db2.assets = db.assets ∧
      db2.nextId = db.nextId + 1 := by
  unfold edit_slide_html at hok
  split at hok
  · exact Except.noConfusion hok
  · next old hold =>
    split at hok
    · exact Except.noConfusion hok
    · next hblank =>
      split at hok
      · exact Except.noConfusion hok
      · next junk eh =>
        cases hok
        exact ⟨old, hold, by simpa using hblank, ⟨eh, rfl, rfl⟩, rfl, rfl,
          rfl, rfl, rfl, rfl, rfl⟩


/-! ## Claims -/

/-- C1: for every presentation whose live slides have contiguous indices
(including the empty collection), after any committed insert-at-index
(`create_slide` returning `.ok`) or delete-at-index (`delete_slide` returning
`.ok`) the live slides' index values again form the contiguous range
`[0, count-1]` with no gaps or duplicates (`Contiguous`). -/
theorem claim_C1_contiguity
    (db db' db2 db3 : DB) (pid pid' : Nat) (i i' : Int) (c : String)
    (collab : CreateCollab) (ns : SlideModel)
    (hcont : Contiguous db pid) (hcont' : Contiguous db' pid')
    (hnd' : IdsNodup db')
    (hins : create_slide db pid i c collab = .ok (db2, ns))
    (hdel : delete_slide db' pid' i' = .ok db3) :
    Contiguous db2 pid ∧ Contiguous db3 pid' := by
  constructor
  · obtain ⟨p, _, h0, hle, _, hns, hidx, hsl, _⟩ := create_slide_ok_spec hins
    exact contiguous_insert hcont h0 (by rwa [livesOf_length] at hle) hns hidx
      hsl
  · obtain ⟨p, d, _, h0, hlt, hd, hdp, hdi, hsl, _⟩ := delete_slide_ok_spec
      hdel
    exact contiguous_delete hcont' hnd' h0 (by rwa [livesOf_length] at hlt) hd
      hdp hdi hsl

/-- Witness for C1: on the concrete three-slide store, the insert at index 1
and the delete at index 1 both commit, and both committed states satisfy the
contiguity invariant. -/
theorem claim_C1_contiguity_witness :
    create_slide exDB 1 1 "new" exCollab = .ok exInsPair ∧
    delete_slide exDB 1 1 = .ok (deleteCommit exDB 1 1) ∧
    Contiguous exInsPair.1 1 ∧ Contiguous (deleteCommit exDB 1 1) 1 := by
  have h1 : create_slide exDB 1 1 "new" exCollab =
      .ok (exInsPair.1, exInsPair.2) := rfl
  have h2 : delete_slide exDB 1 1 = .ok (deleteCommit exDB 1 1) := rfl
  have hc : Contiguous exDB 1 := contiguous_of_listing exDB 1 rfl
  have hmain := claim_C1_contiguity exDB exDB exInsPair.1 (deleteCommit exDB 1 1)
    1 1 1 1 "new" exCollab exInsPair.2 hc hc
    (by unfold IdsNodup; decide) h1 h2
  exact ⟨h1, h2, hmain.1, hmain.2⟩

/-- C2: for a presentation with `count` live slides, insert-at-index with
`index < 0` or `index > count` fails with the index-out-of-range error, and
delete-at-index with `index < 0` or `index >= count` fails likewise; in both
failure cases the committed store (slide rows and the `n_slides` counter) is
unchanged, which the commit wrappers state explicitly. -/
theorem claim_C2_boundary_rejection
    (db : DB) (pid : Nat) (i i' : Int) (c : String) (collab : CreateCollab)
    (p : PresentationModel) (hp : getPresentation db pid = some p)
    (hi : i < 0 ∨ ((livesOf db pid).length : Int) < i)
    (hi' : i' < 0 ∨ ((livesOf db pid).length : Int) ≤ i') :
    create_slide db pid i c collab = .error .indexOutOfRange ∧
    createCommit db pid i c collab = db ∧
    delete_slide db pid i' = .error .indexOutOfRange ∧
    deleteCommit db pid i' = db := by
  have h1 : create_slide db pid i c collab = .error .indexOutOfRange := by
    unfold create_slide
    split
    · next hno => rw [hp] at hno; cases hno
    · next pr hpr =>
      rw [if_pos (by rw [sortByIndex_length]; exact hi)]
  have h3 : delete_slide db pid i' = .error .indexOutOfRange := by
    unfold delete_slide
    split
    · next hno => rw [hp] at hno; cases hno
    · next pr hpr =>
      rw [if_pos (by rw [sortByIndex_length]; exact hi')]
  refine ⟨h1, ?_, h3, ?_⟩
  · unfold createCommit
    rw [h1]
  · unfold deleteCommit
    rw [h3]

/-- Witness for C2: on the three-slide store, inserting at index 4 and
deleting at index 3 are both rejected with the index error and leave the
store unchanged. -/
theorem claim_C2_boundary_rejection_witness :
    create_slide exDB 1 4 "c" exCollab = .error .indexOutOfRange ∧
    createCommit exDB 1 4 "c" exCollab = exDB ∧
    delete_slide exDB 1 3 = .error .indexOutOfRange ∧
    deleteCommit exDB 1 3 = exDB :=
  claim_C2_boundary_rejection exDB 1 4 3 "c" exCollab exPres rfl
    (by decide) (by decide)

theorem shiftUp_map_id (L : List SlideModel) (pid : Nat) (i : Int) :
    (shiftUp L pid i).map (fun s => s.id) = L.map (fun s => s.id) := by
  induction L with
  | nil => rfl
  | cons s ss ih =>
    rw [shiftUp_cons, List.map_cons, List.map_cons, ih]
    congr 1
    split <;> rfl

/-- C3: on a presentation with contiguous live slides, a committed
insert-at-index `i` followed by a committed delete-at-index `i` restores the
slide table exactly: the delete succeeds, the resulting table equals the
original one row for row (identities, indices and contents), and the inserted
slide's row is gone (no remaining row carries its identity). -/
theorem claim_C3_insert_then_delete
    (db db2 : DB) (pid : Nat) (i : Int) (c : String) (collab : CreateCollab)
    (ns : SlideModel)
    (hcont : Contiguous db pid) (hfresh : FreshIds db)
    (hins : create_slide db pid i c collab = .ok (db2, ns)) :
    ∃ db3, delete_slide db2 pid i = .ok db3 ∧ db3.slides = db.slides ∧
      ∀ s ∈ db3.slides, s.id ≠ ns.id := by
  obtain ⟨p, hp, h0, hle, hnsid, hnsp, hnsi, hsl, hnext, hpres, _⟩ :=
    create_slide_ok_spec hins
  have hfilter0 : (shiftUp db.slides pid i).filter
      (fun s => s.presentation == pid && s.index == i) = [] := by
    have h := countIdx_shiftUp db.slides pid i i
    rw [if_neg (by omega), if_pos rfl] at h
    rw [countIdx, List.countP_eq_length_filter] at h
    exact List.length_eq_zero.mp h
  have hnspred : (fun s => s.presentation == pid && s.index == i) ns = true := by
    simp [hnsp, hnsi]
  have hhead : (db2.slides.filter
      (fun s => s.presentation == pid && s.index == i)).head? = some ns := by
    rw [hsl, List.filter_append, hfilter0, List.nil_append,
      List.filter_cons, if_pos hnspred]
    rfl
  have hids : ∀ s ∈ shiftUp db.slides pid i, s.id ≠ ns.id := by
    intro s hs
    have hmm : s.id ∈ (shiftUp db.slides pid i).map (fun t => t.id) :=
      List.mem_map_of_mem _ hs
    rw [shiftUp_map_id] at hmm
    obtain ⟨t, ht, hts⟩ := List.mem_map.mp hmm
    rw [hnsid, ← hts]
    exact Nat.ne_of_lt (hfresh t ht)
  have hremove : db2.slides.filter (fun s => !(s.id == ns.id)) =
      shiftUp db.slides pid i := by
    rw [hsl, List.filter_append, List.filter_cons, if_neg (by simp),
      List.filter_nil, List.append_nil]
    exact List.filter_eq_self.mpr (fun s hs => by
      simp only [Bool.not_eq_true', beq_eq_false_iff_ne, ne_eq]
      exact hids s hs)
  have hlen2 : (livesOf db2 pid).length = (livesOf db pid).length + 1 := by
    rw [livesOf_length, livesOf_length, hsl, pcount_append, pcount_shiftUp,
      pcount_cons, pcount_nil, if_pos hnsp]
  have hgp2 : getPresentation db2 pid = some
      { p with n_slides :=
          (if p.n_slides = 0 then ((livesOf db pid).length : Int)
           else p.n_slides) + 1 } := by
    rw [getPresentation, hpres]
    exact find?_map_update db.presentations pid
      (fun q => { q with n_slides :=
        (if p.n_slides = 0 then ((livesOf db pid).length : Int)
         else p.n_slides) + 1 }) (fun q => rfl) hp
  have hdel_eq : delete_slide db2 pid i =
      .ok { db2 with
            slides := shiftDown
              (db2.slides.filter (fun s => !(s.id == ns.id))) pid i,
            presentations := db2.presentations.map (fun q =>
              if q.id == pid then
                { q with n_slides := max 0 ((if p.n_slides = 0 then
                    ((livesOf db pid).length : Int) else p.n_slides) + 1 - 1) }
              else q) } := by
    unfold delete_slide
    split
    · next hno => rw [hgp2] at hno; cases hno
    · next pr hpr =>
      rw [hgp2] at hpr
      have hpr2 : { p with n_slides :=
          (if p.n_slides = 0 then ((livesOf db pid).length : Int)
           else p.n_slides) + 1 } = pr := by injection hpr
      subst hpr2
      rw [if_neg (by
        rw [sortByIndex_length, hlen2]
        push_neg
        constructor <;> omega)]
      split
      · next hno => rw [hhead] at hno; cases hno
      · next d hd =>
        rw [hhead] at hd
        have hdn : ns = d := by injection hd
        subst hdn
        rfl
  have hslides3 : shiftDown
      (db2.slides.filter (fun s => !(s.id == ns.id))) pid i = db.slides := by
    rw [hremove, shiftDown_shiftUp]
  refine ⟨_, hdel_eq, hslides3, ?_⟩
  intro s hs
  have hs' : s ∈ db.slides := by
    have hmem : s ∈ shiftDown
        (db2.slides.filter (fun t => !(t.id == ns.id))) pid i := hs
    rwa [hslides3] at hmem
  rw [hnsid]
  exact Nat.ne_of_lt (hfresh s hs')

/-- Witness for C3: on the three-slide store, insert at index 1 commits, the
subsequent delete at index 1 commits and restores the original slide table,
and the inserted identity is gone. -/
theorem claim_C3_insert_then_delete_witness :
    create_slide exDB 1 1 "new" exCollab = .ok exInsPair ∧
    ∃ db3, delete_slide exInsPair.1 1 1 = .ok db3 ∧
      db3.slides = exDB.slides ∧ ∀ s ∈ db3.slides, s.id ≠ exInsPair.2.id := by
  have h1 : create_slide exDB 1 1 "new" exCollab =
      .ok (exInsPair.1, exInsPair.2) := rfl
  exact ⟨h1, claim_C3_insert_then_delete exDB exInsPair.1 1 1 "new" exCollab
    exInsPair.2 (contiguous_of_listing exDB 1 rfl)
    (by unfold FreshIds; decide) h1⟩

/-- C4: a committed content edit — structured (`edit_slide`) or HTML
(`edit_slide_html`) — gives the slide an identity different from the one it
had before the edit, while the slide's `index` and `presentation` reference
are unchanged by the edit. -/
theorem claim_C4_edit_reassigns_identity
    (db db' db2 db3 : DB) (pid : Nat) (i : Int) (prompt prompt' : String)
    (collab : EditCollab) (sid : Nat) (html : Option String)
    (edited : Except Unit String) (ns ns' : SlideModel)
    (hfresh : FreshIds db) (hfresh' : FreshIds db')
    (hedit : edit_slide db pid i prompt collab = .ok (db2, ns))
    (hhtml : edit_slide_html db' sid prompt' html edited = .ok (db3, ns')) :
    (∃ old, findSlideAt db pid i = some old ∧ ns.id ≠ old.id ∧
      ns.index = old.index ∧ ns.presentation = old.presentation) ∧
    (∃ old', db'.slides.find? (fun s => s.id == sid) = some old' ∧
      ns'.id ≠ old'.id ∧ ns'.index = old'.index ∧
      ns'.presentation = old'.presentation) := by
  constructor
  · obtain ⟨p, old, hp, hold, _, _, _, hid, hidx, hpres2, _⟩ :=
      edit_slide_ok_spec hedit
    have hold2 := hold
    unfold findSlideAt at hold2
    have homem : old ∈ db.slides := (head?_filter_spec hold2).1
    refine ⟨old, hold, ?_, hidx, hpres2⟩
    rw [hid]
    exact (hfresh old homem).ne'
  · obtain ⟨old', hold', _, _, hid', hidx', hpres', _⟩ :=
      edit_slide_html_ok_spec hhtml
    have homem' : old' ∈ db'.slides := List.mem_of_find?_eq_some hold'
    refine ⟨old', hold', ?_, hidx', hpres'⟩
    rw [hid']
    exact (hfresh' old' homem').ne'

/-- Witness for C4: on the three-slide store, a structured edit of index 1
and an HTML edit of slide 10 both commit, and in both cases the slide's
identity changed while its index and presentation reference did not. -/
theorem claim_C4_edit_reassigns_identity_witness :
    edit_slide exDB 1 1 "reword" exEditCollab = .ok exEditPair ∧
    edit_slide_html exDB 10 "restyle" (some "<b>y</b>") (.ok "<i>z</i>") =
      .ok exHtmlPair ∧
    ((∃ old, findSlideAt exDB 1 1 = some old ∧ exEditPair.2.id ≠ old.id ∧
        exEditPair.2.index = old.index ∧
        exEditPair.2.presentation = old.presentation) ∧
     (∃ old', exDB.slides.find? (fun s => s.id == 10) = some old' ∧
        exHtmlPair.2.id ≠ old'.id ∧ exHtmlPair.2.index = old'.index ∧
        exHtmlPair.2.presentation = old'.presentation)) := by
  have h1 : edit_slide exDB 1 1 "reword" exEditCollab =
      .ok (exEditPair.1, exEditPair.2) := rfl
  have h2 : edit_slide_html exDB 10 "restyle" (some "<b>y</b>")
      (.ok "<i>z</i>") = .ok (exHtmlPair.1, exHtmlPair.2) := rfl
  exact ⟨h1, h2, claim_C4_edit_reassigns_identity exDB exDB exEditPair.1
    exHtmlPair.1 1 1 "reword" "restyle" exEditCollab 10 (some "<b>y</b>")
    (.ok "<i>z</i>") exEditPair.2 exHtmlPair.2
    (by unfold FreshIds; decide) (by unfold FreshIds; decide) h1 h2⟩

/-- C5: on a presentation with contiguous slides at indices `[0,1,2]`, a
committed insert at index 1 yields four contiguous live slides `[0,1,2,3]`
with the new slide at index 1; every pre-existing row at index `>= 1` moves
up by exactly one with its identity and content otherwise unchanged, every
row below stays put, and the batch of `+1` rewrites is drawn from the
reindex query in descending index order. -/
theorem claim_C5_shift_direction
    (db db2 : DB) (pid : Nat) (c : String) (collab : CreateCollab)
    (ns : SlideModel)
    (hcont : Contiguous db pid) (hn : (livesOf db pid).length = 3)
    (hins : create_slide db pid 1 c collab = .ok (db2, ns)) :
    ns.index = 1 ∧ ns.presentation = pid ∧
    (livesOf db2 pid).length = 4 ∧ Contiguous db2 pid ∧
    (∀ s ∈ db.slides, s.presentation = pid → 1 ≤ s.index →
      { s with index := s.index + 1 } ∈ db2.slides) ∧
    (∀ s ∈ db.slides, s.presentation = pid → s.index < 1 →
      s ∈ db2.slides) ∧
    List.Pairwise (fun a b => b.index ≤ a.index)
      (subsequentSlidesDesc db pid 1) := by
  obtain ⟨p, hp, h0, hle, hnsid, hnsp, hnsi, hsl, _⟩ :=
    create_slide_ok_spec hins
  have hlen2 : (livesOf db2 pid).length = (livesOf db pid).length + 1 := by
    rw [livesOf_length, livesOf_length, hsl, pcount_append, pcount_shiftUp,
      pcount_cons, pcount_nil, if_pos hnsp]
  refine ⟨hnsi, hnsp, by rw [hlen2, hn], ?_, ?_, ?_,
    sortByIndexDesc_pairwise _⟩
  · exact contiguous_insert hcont h0 (by rwa [livesOf_length] at hle) hnsp
      hnsi hsl
  · intro s hs hpres hge
    rw [hsl]
    apply List.mem_append_left
    have hcell : (if s.presentation == pid && decide ((1 : Int) ≤ s.index) then
        { s with index := s.index + 1 } else s) =
        { s with index := s.index + 1 } := by
      rw [if_pos (by
        simp only [Bool.and_eq_true, beq_iff_eq, decide_eq_true_eq]
        exact ⟨hpres, hge⟩)]
    rw [shiftUp, ← hcell]
    exact List.mem_map_of_mem _ hs
  · intro s hs hpres hlt
    rw [hsl]
    apply List.mem_append_left
    have hcell : (if s.presentation == pid && decide ((1 : Int) ≤ s.index) then
        { s with index := s.index + 1 } else s) = s := by
      rw [if_neg (by
        simp only [Bool.and_eq_true, beq_iff_eq, decide_eq_true_eq, not_and]
        intro _
        omega)]
    rw [shiftUp, ← hcell]
    exact List.mem_map_of_mem _ hs

/-- Witness for C5: the concrete insert at index 1 of the three-slide store
commits and exhibits every conjunct of the claim. -/
theorem claim_C5_shift_direction_witness :
    create_slide exDB 1 1 "new" exCollab = .ok exInsPair ∧
    (exInsPair.2.index = 1 ∧ exInsPair.2.presentation = 1 ∧
     (livesOf exInsPair.1 1).length = 4 ∧ Contiguous exInsPair.1 1 ∧
     (∀ s ∈ exDB.slides, s.presentation = 1 → 1 ≤ s.index →
       { s with index := s.index + 1 } ∈ exInsPair.1.slides) ∧
     (∀ s ∈ exDB.slides, s.presentation = 1 → s.index < 1 →
       s ∈ exInsPair.1.slides) ∧
     List.Pairwise (fun a b => b.index ≤ a.index)
       (subsequentSlidesDesc exDB 1 1)) := by
  have h1 : create_slide exDB 1 1 "new" exCollab =
      .ok (exInsPair.1, exInsPair.2) := rfl
  exact ⟨h1, claim_C5_shift_direction exDB exInsPair.1 1 "new" exCollab
    exInsPair.2 (contiguous_of_listing exDB 1 rfl) rfl h1⟩

/-- C6: if a presentation's `n_slides` counter equals its live slide count,
then after a committed insert or delete the stored counter again equals the
number of rows returned by the ordered listing (`listOrdered`): insert
increments it, delete decrements it with a floor of 0. -/
theorem claim_C6_counter_consistency
    (db db' db2 db3 : DB) (pid pid' : Nat) (i i' : Int) (c : String)
    (collab : CreateCollab) (ns : SlideModel) (p p' : PresentationModel)
    (hp : getPresentation db pid = some p)
    (hp' : getPresentation db' pid' = some p')
    (hcnt : p.n_slides = ((livesOf db pid).length : Int))
    (hcnt' : p'.n_slides = ((livesOf db' pid').length : Int))
    (hnd' : IdsNodup db')
    (hins : create_slide db pid i c collab = .ok (db2, ns))
    (hdel : delete_slide db' pid' i' = .ok db3) :
    (∃ q, getPresentation db2 pid = some q ∧
      q.n_slides = ((listOrdered db2 pid).length : Int)) ∧
    (∃ q', getPresentation db3 pid' = some q' ∧
      q'.n_slides = ((listOrdered db3 pid').length : Int)) := by
  constructor
  · obtain ⟨p2, hp2, h0, hle, hnsid, hnsp, hnsi, hsl, hnext, hpres, _⟩ :=
      create_slide_ok_spec hins
    rw [hp] at hp2
    have hpp : p = p2 := by injection hp2
    subst hpp
    have hgp2 : getPresentation db2 pid = some
        { p with n_slides :=
            (if p.n_slides = 0 then ((livesOf db pid).length : Int)
             else p.n_slides) + 1 } := by
      rw [getPresentation, hpres]
      exact find?_map_update db.presentations pid
        (fun q => { q with n_slides :=
          (if p.n_slides = 0 then ((livesOf db pid).length : Int)
           else p.n_slides) + 1 }) (fun q => rfl) hp
    refine ⟨_, hgp2, ?_⟩
    dsimp only
    have hlen2 : (livesOf db2 pid).length = (livesOf db pid).length + 1 := by
      rw [livesOf_length, livesOf_length, hsl, pcount_append, pcount_shiftUp,
        pcount_cons, pcount_nil, if_pos hnsp]
    rw [listOrdered, sortByIndex_length, hlen2]
    rw [hcnt]
    split_ifs <;> omega
  · obtain ⟨q', d, hq', h0, hlt, hd, hdp, hdi, hsl3, hpres3, _⟩ :=
      delete_slide_ok_spec hdel
    rw [hp'] at hq'
    have hpp' : p' = q' := by injection hq'
    subst hpp'
    have hgp3 : getPresentation db3 pid' = some
        { p' with n_slides := max 0 (p'.n_slides - 1) } := by
      rw [getPresentation, hpres3]
      exact find?_map_update db'.presentations pid'
        (fun q => { q with n_slides := max 0 (p'.n_slides - 1) })
        (fun q => rfl) hp'
    refine ⟨_, hgp3, ?_⟩
    dsimp only
    have hrem : pcount (db'.slides.filter (fun s => !(s.id == d.id))) pid' =
        pcount db'.slides pid' - 1 := by
      have h := pcount_removeId db'.slides d pid' hnd' hd
      rw [if_pos hdp] at h
      omega
    have hlen3 : (livesOf db3 pid').length = (livesOf db' pid').length - 1 := by
      rw [livesOf_length, livesOf_length, hsl3, pcount_shiftDown, hrem]
    rw [listOrdered, sortByIndex_length, hlen3, hcnt']
    rw [max_eq_right (by omega)]
    omega

/-- Witness for C6: for the three-slide store (whose stored counter is 3),
the committed insert carries counter 4 and the committed delete carries
counter 2, both matching their ordered listings. -/
theorem claim_C6_counter_consistency_witness :
    create_slide exDB 1 1 "new" exCollab = .ok exInsPair ∧
    delete_slide exDB 1 1 = .ok (deleteCommit exDB 1 1) ∧
    ((∃ q, getPresentation exInsPair.1 1 = some q ∧
        q.n_slides = ((listOrdered exInsPair.1 1).length : Int)) ∧
     (∃ q', getPresentation (deleteCommit exDB 1 1) 1 = some q' ∧
        q'.n_slides = ((listOrdered (deleteCommit exDB 1 1) 1).length : Int))) := by
  have h1 : create_slide exDB 1 1 "new" exCollab =
      .ok (exInsPair.1, exInsPair.2) := rfl
  have h2 : delete_slide exDB 1 1 = .ok (deleteCommit exDB 1 1) := rfl
  exact ⟨h1, h2, claim_C6_counter_consistency exDB exDB exInsPair.1
    (deleteCommit exDB 1 1) 1 1 1 1 "new" exCollab exInsPair.2 exPres exPres
    rfl rfl rfl rfl (by unfold IdsNodup; decide) h1 h2⟩

/-- C7 counterexample: the claim says every out-of-bounds layout suggestion —
"whether too large or negative" — is replaced by a safe in-range default.  On
the concrete store with a two-entry non-ordered layout and the collaborator
suggesting layout index `-3`, `create_slide` does not substitute any default:
the Python list subscript raises `IndexError` and the operation fails, so no
layout is assigned at all. -/
theorem claim_C7_layout_clamp_counterexample :
    create_slide exDBFree 1 0 "c" exCollabNeg = .error .pyIndexError ∧
    exPresFree.layout.ordered = false ∧
    exCollabNeg.structureSlides = .ok [-3] ∧ (-3 : Int) < 0 := by
  exact ⟨rfl, rfl, rfl, by decide⟩

/-- C7 amended: only suggestions that are too large (`>= len(layout.slides)`)
are replaced by the safe default index 0 — the committed slide then carries
the layout at the head of the layout list.  Negative suggestions are not
clamped: a suggestion in `[-len, 0)` selects from the end of the list via
Python negative indexing, so the committed slide carries the layout at
position `len + suggestion`, and a suggestion below `-len` makes the
operation fail with a Python `IndexError` instead of using any default. -/
theorem claim_C7_layout_clamp_amended
    (db db2 : DB) (pid : Nat) (i : Int) (c : String) (collab : CreateCollab)
    (ns : SlideModel) (p : PresentationModel) (li : Int) (rest : List Int)
    (hp : getPresentation db pid = some p)
    (hord : p.layout.ordered = false)
    (hs : collab.structureSlides = .ok (li :: rest)) :
    ((p.layout.slides.length : Int) ≤ li →
      create_slide db pid i c collab = .ok (db2, ns) →
      ∃ l0, p.layout.slides.head? = some l0 ∧ ns.layout = l0.id) ∧
    (-(p.layout.slides.length : Int) ≤ li → li < 0 →
      create_slide db pid i c collab = .ok (db2, ns) →
      ∃ sl, p.layout.slides.get?
          (li + (p.layout.slides.length : Int)).toNat = some sl ∧
        ns.layout = sl.id) ∧
    (li < -(p.layout.slides.length : Int) →
      0 ≤ i → i ≤ ((livesOf db pid).length : Int) →
      create_slide db pid i c collab = .error .pyIndexError) := by
  have hextract : create_slide db pid i c collab = .ok (db2, ns) →
      ∃ sl, pyGet p.layout.slides
        (if (p.layout.slides.length : Int) ≤ li then 0 else li) = some sl ∧
        ns.layout = sl.id := by
    intro hins
    obtain ⟨p2, hp2, _, _, _, _, _, _, _, _, _, _, st, li2, rest2, sl, hst,
      htake, hpg, hlay⟩ := create_slide_ok_spec hins
    rw [hp] at hp2
    have hpp : p = p2 := by injection hp2
    subst hpp
    rw [hord, if_neg (by simp), hs] at hst
    have hstv : li :: rest = st := by injection hst
    subst hstv
    have htake1 : (li :: rest).take 1 = [li] := rfl
    rw [htake1] at htake
    have hli : li = li2 := by injection htake
    subst hli
    exact ⟨sl, hpg, hlay⟩
  refine ⟨?_, ?_, ?_⟩
  · intro hge hins
    obtain ⟨sl, hpg, hlay⟩ := hextract hins
    rw [if_pos hge] at hpg
    unfold pyGet at hpg
    rw [if_pos (le_refl (0 : Int))] at hpg
    rw [show ((0 : Int).toNat) = 0 from rfl, List.get?_zero] at hpg
    exact ⟨sl, hpg, hlay⟩
  · intro hlo hneg hins
    obtain ⟨sl, hpg, hlay⟩ := hextract hins
    rw [if_neg (by omega)] at hpg
    unfold pyGet at hpg
    rw [if_neg (by omega), if_neg (by omega)] at hpg
    exact ⟨sl, hpg, hlay⟩
  · intro hfar h0i hle
    unfold create_slide
    split
    · next hno => rw [hp] at hno; cases hno
    · next pr hpr =>
      rw [hp] at hpr
      have hpp : p = pr := by injection hpr
      subst hpp
      rw [if_neg (by
        rw [sortByIndex_length]
        push_neg
        exact ⟨h0i, hle⟩)]
      rw [hord, if_neg (by simp), hs]
      split
      · next e heq => exact absurd heq (by simp)
      · next st hst2 =>
        have hstv : li :: rest = st := by injection hst2
        subst hstv
        have htake1 : (li :: rest).take 1 = [li] := rfl
        rw [htake1]
        split
        · next hemp => exact absurd hemp (by simp)
        · next li2 rest2 h2 =>
          have hli : li = li2 := by injection h2
          subst hli
          have hclamp : ¬ ((p.layout.slides.length : Int) ≤ li) := by omega
          rw [if_neg hclamp]
          have hnone : pyGet p.layout.slides li = none := by
            unfold pyGet
            rw [if_neg (by omega), if_pos (by omega)]
          rw [hnone]

/-- Witness for the amended C7: on the non-ordered two-entry layout, the
too-large suggestion 5 commits with the head layout, the in-range negative
suggestion -1 commits with the last layout (position `2 + (-1) = 1`), and
the far-negative suggestion -3 fails with the Python `IndexError`. -/
theorem claim_C7_layout_clamp_amended_witness :
    (create_slide exDBFree 1 0 "extra" exCollabBig = .ok exInsPairBig ∧
     ∃ l0, exPresFree.layout.slides.head? = some l0 ∧
       exInsPairBig.2.layout = l0.id) ∧
    (create_slide exDBFree 1 0 "mid" exCollabNegIn = .ok exInsPairNegIn ∧
     ∃ sl, exPresFree.layout.slides.get?
         ((-1 : Int) + (exPresFree.layout.slides.length : Int)).toNat =
         some sl ∧ exInsPairNegIn.2.layout = sl.id) ∧
    create_slide exDBFree 1 0 "c" exCollabNeg = .error .pyIndexError := by
  have h1 : create_slide exDBFree 1 0 "extra" exCollabBig =
      .ok (exInsPairBig.1, exInsPairBig.2) := rfl
  have h2 : create_slide exDBFree 1 0 "mid" exCollabNegIn =
      .ok (exInsPairNegIn.1, exInsPairNegIn.2) := rfl
  have ha := claim_C7_layout_clamp_amended exDBFree exInsPairBig.1 1 0 "extra"
    exCollabBig exInsPairBig.2 exPresFree 5 [] rfl rfl rfl
  have hb := claim_C7_layout_clamp_amended exDBFree exInsPairNegIn.1 1 0 "mid"
    exCollabNegIn exInsPairNegIn.2 exPresFree (-1) [] rfl rfl rfl
  have hc := claim_C7_layout_clamp_amended exDBFree exDB 1 0 "c"
    exCollabNeg (exSlide 0 0) exPresFree (-3) [] rfl rfl rfl
  exact ⟨⟨h1, ha.1 (by decide) h1⟩, ⟨h2, hb.2.1 (by decide) (by decide) h2⟩,
    hc.2.2 (by decide) (by decide) (by decide)⟩

/-- C8: the object-storage upload and download helpers return `none` ("not
available") instead of failing whenever storage is unconfigured — a falsy
endpoint, access key or secret key (no client is built) or a falsy bucket
name — while under a full configuration the upload returns the constructed
object key and the download returns the local path. -/
theorem claim_C8_s3_unconfigured
    (cfg cfg2 : S3Config) (lp lp2 okey : String) (post : Option String)
    (hmiss : blankStr cfg.endpoint = true ∨ blankStr cfg.access_key = true ∨
      blankStr cfg.secret_key = true ∨ blankStr cfg.bucket = true)
    (hconf : blankStr cfg2.endpoint = false ∧
      blankStr cfg2.access_key = false ∧ blankStr cfg2.secret_key = false ∧
      blankStr cfg2.bucket = false) :
    upload_file_to_s3_sync cfg lp post = none ∧
    download_file_from_s3_sync cfg okey lp2 = none ∧
    upload_file_to_s3_sync cfg2 lp post = some (s3ObjectKey cfg2 lp post) ∧
    download_file_from_s3_sync cfg2 okey lp2 = some lp2 := by
  obtain ⟨h1, h2, h3, h4⟩ := hconf
  have hclient2 : build_s3_client cfg2 = some () := by
    unfold build_s3_client
    rw [if_neg (by simp [h1, h2, h3])]
  have hcfg : build_s3_client cfg = none ∨ blankStr cfg.bucket = true := by
    unfold build_s3_client
    by_cases he : (blankStr cfg.endpoint || blankStr cfg.access_key ||
        blankStr cfg.secret_key) = true
    · exact Or.inl (by rw [if_pos he])
    · rcases hmiss with h | h | h | h
      · exact absurd (by simp [h]) he
      · exact absurd (by simp [h]) he
      · exact absurd (by simp [h]) he
      · exact Or.inr h
  refine ⟨?_, ?_, ?_, ?_⟩
  · rcases hcfg with hc | hb
    · simp [upload_file_to_s3_sync, hc]
    · cases hc : build_s3_client cfg with
      | none => simp [upload_file_to_s3_sync, hc]
      | some u => simp [upload_file_to_s3_sync, hc, hb]
  · rcases hcfg with hc | hb
    · simp [download_file_from_s3_sync, hc]
    · cases hc : build_s3_client cfg with
      | none => simp [download_file_from_s3_sync, hc]
      | some u => simp [download_file_from_s3_sync, hc, hb]
  · simp [upload_file_to_s3_sync, hclient2, h4]
  · simp [download_file_from_s3_sync, hclient2, h4]

/-- Witness for C8: with the endpoint unset the upload and download both
return `none`; with the full configuration they return the constructed
object key and the local path. -/
theorem claim_C8_s3_unconfigured_witness :
    upload_file_to_s3_sync exCfgOff "/tmp/images/a.png" (some "pres1") =
      none ∧
    download_file_from_s3_sync exCfgOff "pre/a.png" "/tmp/images/a.png" =
      none ∧
    upload_file_to_s3_sync exCfgOn "/tmp/images/a.png" (some "pres1") =
      some (s3ObjectKey exCfgOn "/tmp/images/a.png" (some "pres1")) ∧
    download_file_from_s3_sync exCfgOn "pre/a.png" "/tmp/images/a.png" =
      some "/tmp/images/a.png" :=
  claim_C8_s3_unconfigured exCfgOff exCfgOn "/tmp/images/a.png"
    "/tmp/images/a.png" "pre/a.png" (some "pres1") (Or.inl rfl)
    ⟨rfl, rfl, rfl, rfl⟩

/-- C9: when a collaborator step fails — the asset fetch or content
generation raising, or the structure selection raising or returning an empty
result (on a non-ordered layout) for `create_slide`; any of the three
collaborators raising for `edit_slide`; the HTML editor raising for
`edit_slide_html` — the operation cannot return `.ok`, so nothing is
committed: the committed store equals the original (no new slide row, no
reindex shift, no counter change and no asset record).  `delete_slide`
invokes no collaborator, so the claim is vacuous for it. -/
theorem claim_C9_collaborator_failure_aborts
    (db dbE dbH : DB) (pid pidE : Nat) (i iE : Int)
    (c promptE promptH : String) (collab : CreateCollab)
    (collabE : EditCollab) (sid : Nat) (html : Option String)
    (hfail : collab.assets = .error () ∨ collab.slideContent = .error () ∨
      ((∀ p ∈ db.presentations, p.layout.ordered = false) ∧
        (collab.structureSlides = .ok [] ∨
         collab.structureSlides = .error ())))
    (hfailE : collabE.slide_layout = .error () ∨
      collabE.edited_content = .error () ∨ collabE.new_assets = .error ()) :
    createCommit db pid i c collab = db ∧
    editCommit dbE pidE iE promptE collabE = dbE ∧
    editHtmlCommit dbH sid promptH html (.error ()) = dbH := by
  refine ⟨?_, ?_, ?_⟩
  · unfold createCommit
    cases hok : create_slide db pid i c collab with
    | error e => rfl
    | ok pr =>
      exfalso
      obtain ⟨db2, ns⟩ := pr
      obtain ⟨p, hp, _, _, _, _, _, _, _, _, ⟨sc, hsc, _⟩, ⟨ga, hga, _⟩,
        st, li, rest, sl, hst, htake, _⟩ := create_slide_ok_spec hok
      rcases hfail with h | h | ⟨hordall, h | h⟩
      · rw [h] at hga
        exact Except.noConfusion hga
      · rw [h] at hsc
        exact Except.noConfusion hsc
      · have hord : p.layout.ordered = false :=
          hordall p (getPresentation_spec hp).1
        rw [hord, if_neg (by simp), h] at hst
        have hse : ([] : List Int) = st := by injection hst
        rw [← hse] at htake
        exact List.noConfusion htake
      · have hord : p.layout.ordered = false :=
          hordall p (getPresentation_spec hp).1
        rw [hord, if_neg (by simp), h] at hst
        exact Except.noConfusion hst
  · unfold editCommit
    cases hok : edit_slide dbE pidE iE promptE collabE with
    | error e => rfl
    | ok pr =>
      exfalso
      obtain ⟨db2, ns⟩ := pr
      obtain ⟨p, old, _, _, ⟨sl, hsl, _⟩, ⟨ec, hec, _⟩, ⟨na, hna, _⟩, _⟩ :=
        edit_slide_ok_spec hok
      rcases hfailE with h | h | h
      · rw [h] at hsl
        exact Except.noConfusion hsl
      · rw [h] at hec
        exact Except.noConfusion hec
      · rw [h] at hna
        exact Except.noConfusion hna
  · unfold editHtmlCommit
    cases hok : edit_slide_html dbH sid promptH html (.error ()) with
    | error e => rfl
    | ok pr =>
      exfalso
      obtain ⟨db2, ns⟩ := pr
      obtain ⟨old, _, _, ⟨eh, heh, _⟩, _⟩ := edit_slide_html_ok_spec hok
      exact Except.noConfusion heh

/-- Witness for C9: on the three-slide store, a raising asset fetch aborts
the insert, a raising asset reconciliation aborts the structured edit, and a
raising HTML editor aborts the HTML edit — the committed store is unchanged
in all three cases. -/
theorem claim_C9_collaborator_failure_aborts_witness :
    exCollabFailAssets.assets = .error () ∧
    exEditCollabFail.new_assets = .error () ∧
    createCommit exDB 1 1 "new" exCollabFailAssets = exDB ∧
    editCommit exDB 1 1 "reword" exEditCollabFail = exDB ∧
    editHtmlCommit exDB 10 "restyle" (some "<b>y</b>") (.error ()) = exDB := by
  have h := claim_C9_collaborator_failure_aborts exDB exDB exDB 1 1 1 1 "new"
    "reword" "restyle" exCollabFailAssets exEditCollabFail 10
    (some "<b>y</b>") (Or.inl rfl) (Or.inr (Or.inr rfl))
  exact ⟨rfl, rfl, h.1, h.2.1, h.2.2⟩

/-- C10: when the stored `html_content` of an existing slide is absent or
empty and the caller supplies no `html` argument, `edit_slide_html` fails
with the 400 "No HTML to edit" error before any mutation — the committed
store (the slide's identity, `html_content` and all other fields) is
unchanged. -/
theorem claim_C10_html_edit_requires_html
    (db : DB) (sid : Nat) (prompt : String) (edited : Except Unit String)
    (slide : SlideModel)
    (hs : db.slides.find? (fun s => s.id == sid) = some slide)
    (hblank : slide.html_content = none ∨ slide.html_content = some "") :
    edit_slide_html db sid prompt none edited =
      .error (.badRequest "No HTML to edit") ∧
    editHtmlCommit db sid prompt none edited = db := by
  have h1 : edit_slide_html db sid prompt none edited =
      .error (.badRequest "No HTML to edit") := by
    unfold edit_slide_html
    split
    · next hno => rw [hs] at hno; cases hno
    · next sl hsl =>
      rw [hs] at hsl
      have hss : slide = sl := by injection hsl
      subst hss
      rw [if_pos (by
        rcases hblank with h | h <;> simp [pyOrStr, blankStr, h])]
  refine ⟨h1, ?_⟩
  unfold editHtmlCommit
  rw [h1]

/-- Witness for C10: on the store whose only slide (id 20) has no stored
HTML, the HTML edit without an `html` argument is rejected with the 400
error and the store is unchanged. -/
theorem claim_C10_html_edit_requires_html_witness :
    exDBNoHtml.slides.find? (fun s => s.id == 20) =
      some { exSlide 20 0 with html_content := none } ∧
    edit_slide_html exDBNoHtml 20 "p" none (.ok "<i>z</i>") =
      .error (.badRequest "No HTML to edit") ∧
    editHtmlCommit exDBNoHtml 20 "p" none (.ok "<i>z</i>") = exDBNoHtml := by
  have h := claim_C10_html_edit_requires_html exDBNoHtml 20 "p"
    (.ok "<i>z</i>") { exSlide 20 0 with html_content := none } rfl
    (Or.inl rfl)
  exact ⟨rfl, h.1, h.2⟩
